import Mathlib

/-!
# Verification of the `parfun` deferred-value engine

A shallow embedding of `src/parfun/kernel/delayed_value.py` and
`src/parfun/backend/profiled_future.py`.

Python values are modelled by the inductive `PyVal`; Python exceptions by
`PyErr` (a type name and a message).  A Python function is a map from
positional and keyword arguments to `Except PyErr PyVal`.  A call that can
block forever (awaiting a pending future) returns `Option (Except PyErr α)`,
where `Option.none` means the call blocks and never produces a value.
-/

/-- A Python exception: its type name and its message. -/
structure PyErr where
  ty : String
  msg : String
deriving Repr, DecidableEq

mutual

/-- A Python value.  `handle fut` is a `DelayedValue` object appearing as an
argument; it carries the state of its underlying future. -/
inductive PyVal : Type where
  | pyNone : PyVal
  | int (n : Int) : PyVal
  | str (s : String) : PyVal
  | bool (b : Bool) : PyVal
  | list (xs : List PyVal) : PyVal
  | handle (fut : FutureState) : PyVal

/-- The state of a `concurrent.futures.Future`: it transitions exactly once
from `pending` to either `resolved` or `failed`. -/
inductive FutureState : Type where
  | pending : FutureState
  | resolved (v : PyVal) : FutureState
  | failed (e : PyErr) : FutureState

end

/-- `Future.done()`: whether the future reached a terminal state. -/
def FutureState.done : FutureState → Bool
  | .pending => false
  | .resolved _ => true
  | .failed _ => true

/-- `Future.result()`: blocks until the future is done (`Option.none` models
blocking forever on a pending future), then returns the stored value or
re-raises the stored exception object itself. -/
def FutureState.result : FutureState → Option (Except PyErr PyVal)
  | .pending => Option.none
  | .resolved v => some (Except.ok v)
  | .failed e => some (Except.error e)

/-- A Python function of positional and keyword arguments
(`function(*args, **kwargs)`), returning a value or raising. -/
def PyFun : Type := List PyVal → List (String × PyVal) → Except PyErr PyVal

/-- Whether a value is an instance of `DelayedValue`
(`isinstance(arg, cls)` in `_undelay_arguments`). -/
def PyVal.isHandle : PyVal → Bool
  | .handle _ => true
  | _ => false

/-- `arg.delayed_value() if isinstance(arg, cls) else arg`: a `DelayedValue`
argument is awaited and replaced by its resolved value (re-raising its stored
error, blocking while pending); any other value — including a container that
merely holds a handle — is passed through unchanged. -/
def undelayValue : PyVal → Option (Except PyErr PyVal)
  | .handle fut => fut.result
  | v => some (Except.ok v)

/-- `_undelay_arguments` over the positional tuple: awaits handles left to
right, propagating the first raised error. -/
def undelayList : List PyVal → Option (Except PyErr (List PyVal))
  | [] => some (Except.ok [])
  | a :: rest =>
    match undelayValue a with
    | Option.none => Option.none
    | some (Except.error e) => some (Except.error e)
    | some (Except.ok v) =>
      match undelayList rest with
      | Option.none => Option.none
      | some (Except.error e) => some (Except.error e)
      | some (Except.ok vs) => some (Except.ok (v :: vs))

/-- `_undelay_arguments` over the keyword mapping (insertion order kept). -/
def undelayKwargs : List (String × PyVal) → Option (Except PyErr (List (String × PyVal)))
  | [] => some (Except.ok [])
  | (name, a) :: rest =>
    match undelayValue a with
    | Option.none => Option.none
    | some (Except.error e) => some (Except.error e)
    | some (Except.ok v) =>
      match undelayKwargs rest with
      | Option.none => Option.none
      | some (Except.error e) => some (Except.error e)
      | some (Except.ok vs) => some (Except.ok ((name, v) :: vs))

/-- `DelayedValue._undelay_arguments(args, kwargs)`. -/
def undelayArguments (args : List PyVal) (kwargs : List (String × PyVal)) :
    Option (Except PyErr (List PyVal × List (String × PyVal))) :=
  match undelayList args with
  | Option.none => Option.none
  | some (Except.error e) => some (Except.error e)
  | some (Except.ok a) =>
    match undelayKwargs kwargs with
    | Option.none => Option.none
    | some (Except.error e) => some (Except.error e)
    | some (Except.ok k) => some (Except.ok (a, k))

/-- The state of a scoped backend session (`current_backend.session()`):
`opened` after `__enter__`, `closed` after `__exit__`. -/
inductive SessionState : Type where
  | opened : SessionState
  | closed : SessionState
deriving Repr, DecidableEq

/-- The `on_done_callback` registered by `DelayedValue.__init__`: reads
`completed_future.exception()` and calls `self._backend_session.__exit__`
in both the exception branch and the no-exception branch, releasing the
session either way. -/
def onDoneCallback (completedFuture : FutureState) (_session : SessionState) : SessionState :=
  match completedFuture with
  | .failed _ => SessionState.closed
  | _ => SessionState.closed

/-- A constructed `DelayedValue` object: its `_backend_session` field
(`Option.none` when no backend was configured) and its `_future` field. -/
structure DelayedValue where
  backendSession : Option SessionState
  future : FutureState

/-- `DelayedValue.__init__(function, args, kwargs)` with the submitted task
already run to completion (the synchronous local-backend view).

First `_undelay_arguments` resolves handle arguments (an error raised there
escapes the constructor).  If `get_parallel_backend()` is `None`
(`currentBackendConfigured = false`), the function is called synchronously:
if it raises, the exception escapes `__init__`; otherwise the result is
stored in an already-resolved future and no session is acquired.  Otherwise a
session is entered, the function is submitted, and the registered
`on_done_callback` releases the session once the future completes with the
function's outcome. -/
def DelayedValue.init (currentBackendConfigured : Bool) (f : PyFun)
    (args : List PyVal) (kwargs : List (String × PyVal)) :
    Option (Except PyErr DelayedValue) :=
  match undelayArguments args kwargs with
  | Option.none => Option.none
  | some (Except.error e) => some (Except.error e)
  | some (Except.ok (a, k)) =>
    if currentBackendConfigured then
      let fut : FutureState :=
        match f a k with
        | Except.ok v => FutureState.resolved v
        | Except.error e => FutureState.failed e
      some (Except.ok
        { backendSession := some (onDoneCallback fut SessionState.opened), future := fut })
    else
      match f a k with
      | Except.error e => some (Except.error e)
      | Except.ok v =>
        some (Except.ok { backendSession := Option.none, future := FutureState.resolved v })

/-- `DelayedValue.delayed_value()`: `self._future.result()`. -/
def DelayedValue.delayedValue (dv : DelayedValue) : Option (Except PyErr PyVal) :=
  dv.future.result

/-- `DelayedValue.__repr__`: if the future is done, delegates to the resolved
value's own `__repr__` (`valueRepr`, the value's builtin behaviour, passed as
a parameter) — which re-raises the stored error of a failed future; if the
future is still pending, returns the sentinel text without touching
`result()`. -/
def DelayedValue.reprStr (valueRepr : PyVal → String) (dv : DelayedValue) :
    Option (Except PyErr String) :=
  if dv.future.done then
    match dv.delayedValue with
    | Option.none => Option.none
    | some (Except.error e) => some (Except.error e)
    | some (Except.ok v) => some (Except.ok ("DelayedValue(" ++ valueRepr v ++ ")"))
  else
    some (Except.ok "DelayedValue(<pending>)")

/-- A method of the underlying value (`getattr(value, method_name)` applied to
arguments): the delegated behaviour of the wrapped value itself, external to
the repository's code. -/
def PyMethod : Type :=
  PyVal → List PyVal → List (String × PyVal) → Option (Except PyErr PyVal)

/-- The `wrapper` installed by `DelayedValue._add_overloaded_method`: first
`_undelay_arguments` on the operation's own arguments, then
`getattr(self.delayed_value(), method_name)(*args, **kwargs)`. -/
def forwardedMethod (op : PyMethod) (dv : DelayedValue)
    (args : List PyVal) (kwargs : List (String × PyVal)) :
    Option (Except PyErr PyVal) :=
  match undelayArguments args kwargs with
  | Option.none => Option.none
  | some (Except.error e) => some (Except.error e)
  | some (Except.ok (a, k)) =>
    match dv.delayedValue with
    | Option.none => Option.none
    | some (Except.error e) => some (Except.error e)
    | some (Except.ok v) => op v a k

/-- The `__OVERLOADED_METHODS` set installed on `DelayedValue` (each entry is
given the `wrapper` semantics of `forwardedMethod`). -/
def overloadedMethods : List String :=
  [ "__sizeof__", "__str__", "__bytes__", "__hash__", "__dir__", "__format__",
    "__len__", "__getitem__", "__setitem__", "__delitem__", "__contains__", "__iter__",
    "__reversed__", "__missing__",
    "__call__",
    "__abs__", "__add__", "__sub__", "__mul__", "__truediv__", "__floordiv__", "__mod__",
    "__pow__", "__matmul__", "__neg__", "__pos__", "__divmod__", "__round__", "__trunc__",
    "__iadd__", "__isub__", "__imul__", "__itruediv__", "__ifloordiv__", "__imod__",
    "__ipow__", "__imatmul__", "__idivmod__",
    "__radd__", "__rsub__", "__rmul__", "__rtruediv__", "__rfloordiv__", "__rmod__",
    "__rpow__", "__rmatmul__", "__rdivmod__",
    "__and__", "__or__", "__xor__", "__lshift__", "__rshift__", "__invert__", "__not__",
    "__iand__", "__ior__", "__ixor__", "__ilshift__", "__irshift__",
    "__rand__", "__ror__", "__rxor__", "__rlshift__", "__rrshift__",
    "__eq__", "__ne__", "__lt__", "__le__", "__gt__", "__ge__",
    "__req__", "__rne__", "__rlt__", "__rle__", "__rgt__", "__rge__",
    "__index__", "__bool__", "__int__", "__float__", "__complex__" ]

/-- `int.__add__`, the delegated behaviour of an integer value: a
representative concrete `PyMethod` for the forwarded `__add__` operation. -/
def pyIntAdd : PyMethod := fun self oargs okw =>
  match self, oargs, okw with
  | PyVal.int m, [PyVal.int n], [] => some (Except.ok (PyVal.int (m + n)))
  | _, _, _ => some (Except.error ⟨"TypeError", "unsupported operand type"⟩)

/-!
## `ProfiledFuture` (`src/parfun/backend/profiled_future.py`)

The duration metric is modelled by `Option Nat` (`TraceTime` or `None`).
The base `Future.set_result` / `set_exception` atomically performs the state
transition and then invokes every registered completion callback, each
receiving the future object as it stands at that (post-transition) moment;
waiters awake at the same moment and observe the same object.
-/

/-- A `ProfiledFuture` object: the base future's state, the `_duration`
field, and the number of registered completion callbacks. -/
structure ProfiledFuture where
  state : FutureState
  duration : Option Nat
  callbacks : Nat

/-- The base-class transition `Future.set_result` / `Future.set_exception`:
moves the future to the given terminal state and fires every registered
callback with the future as it stands after the transition.  Returns the new
object and the list of objects observed by the callbacks (and by every
awakened waiter, who also observes the post-transition object). -/
def baseSetTerminal (fut : ProfiledFuture) (terminal : FutureState) :
    ProfiledFuture × List ProfiledFuture :=
  let done := { fut with state := terminal }
  (done, List.replicate fut.callbacks done)

/-- `ProfiledFuture.set_result(result, duration)`: writes `self._duration`
first, then calls `super().set_result(result)` (which triggers all completion
callbacks). -/
def ProfiledFuture.setResult (fut : ProfiledFuture) (result : PyVal) (duration : Option Nat) :
    ProfiledFuture × List ProfiledFuture :=
  baseSetTerminal { fut with duration := duration } (FutureState.resolved result)

/-- `ProfiledFuture.set_exception(exception, duration)`: writes
`self._duration` first, then calls `super().set_exception(exception)`. -/
def ProfiledFuture.setException (fut : ProfiledFuture) (exc : PyErr) (duration : Option Nat) :
    ProfiledFuture × List ProfiledFuture :=
  baseSetTerminal { fut with duration := duration } (FutureState.failed exc)

/-!
## Session lifecycle of a backend-submitted `DelayedValue` (temporal view)

For the invariant that the session acquired by `__init__` is released exactly
at future completion, the construction is split into its submission phase
(session entered, future pending, callback registered) and the later
completion phase (future reaches a terminal state, `on_done_callback` runs).
-/

/-- The session/future pair of a `DelayedValue` built with a configured
backend. -/
structure AsyncHandle where
  session : SessionState
  future : FutureState

/-- The state right after `__init__` returns on the backend path, before the
worker finishes: `current_backend.session().__enter__()` was called (session
opened), `submit` returned a still-pending future, and `on_done_callback` is
registered on it. -/
def submitPhase : AsyncHandle :=
  { session := SessionState.opened, future := FutureState.pending }

/-- The future completes with the task's outcome; the base future fires the
registered `on_done_callback`, which releases the session. -/
def completePhase (h : AsyncHandle) (outcome : Except PyErr PyVal) : AsyncHandle :=
  let fut : FutureState :=
    match outcome with
    | Except.ok v => FutureState.resolved v
    | Except.error e => FutureState.failed e
  { session := onDoneCallback fut h.session, future := fut }

/-!
## Worker-side backend visibility (for nested submissions)

`parfun.entry_point.get_parallel_backend` is not part of the sources under
verification; only its use in `delayed_value.py` is.
-/

/-- Modelled from the spec: `parfun/entry_point.py` (`get_parallel_backend`)
is missing from the sources; per the note in `DelayedValue.__init__`
(“unsupported nested function calls will have an empty backend setup”) and the
spec's backend interface (`allows_nested_tasks()`), a task running on a worker
sees a configured backend if and only if its backend permits nested
submission. -/
def workerBackendConfigured (allowsNestedTasks : Bool) : Bool :=
  allowsNestedTasks

/-!
## Helper lemmas
-/

/-- A value that is not a `DelayedValue` instance passes through
`_undelay_arguments` unchanged. -/
theorem undelayValue_of_not_handle (x : PyVal) (hx : x.isHandle = false) :
    undelayValue x = some (Except.ok x) := by
  cases x <;> simp_all [undelayValue, PyVal.isHandle]

/-- A handle argument is awaited: `_undelay_arguments` calls its
`delayed_value()`, that is `result()` on its future. -/
theorem undelayValue_handle (fut : FutureState) :
    undelayValue (PyVal.handle fut) = fut.result := rfl

/-- A container argument is not a `DelayedValue` instance: it passes through
unchanged even when it holds handles inside. -/
theorem undelayValue_list (xs : List PyVal) :
    undelayValue (PyVal.list xs) = some (Except.ok (PyVal.list xs)) := rfl

/-- A positional tuple free of handles passes through unchanged. -/
theorem undelayList_of_handleFree (xs : List PyVal)
    (h : ∀ x ∈ xs, x.isHandle = false) :
    undelayList xs = some (Except.ok xs) := by
  induction xs with
  | nil => rfl
  | cons a rest ih =>
    have ha : undelayValue a = some (Except.ok a) :=
      undelayValue_of_not_handle a (h a (List.mem_cons_self a rest))
    have hrest : undelayList rest = some (Except.ok rest) :=
      ih fun x hx => h x (List.mem_cons_of_mem a hx)
    simp [undelayList, ha, hrest]

/-- A keyword mapping free of handles passes through unchanged. -/
theorem undelayKwargs_of_handleFree (ks : List (String × PyVal))
    (h : ∀ p ∈ ks, (p.2 : PyVal).isHandle = false) :
    undelayKwargs ks = some (Except.ok ks) := by
  induction ks with
  | nil => rfl
  | cons p rest ih =>
    have ha : undelayValue p.2 = some (Except.ok p.2) :=
      undelayValue_of_not_handle p.2 (h p (List.mem_cons_self p rest))
    have hrest : undelayKwargs rest = some (Except.ok rest) :=
      ih fun q hq => h q (List.mem_cons_of_mem p hq)
    cases p with
    | mk name a => simp only [undelayKwargs]; simp at ha; simp [ha, hrest]

/-- Handle-free arguments pass through `_undelay_arguments` unchanged. -/
theorem undelayArguments_of_handleFree (args : List PyVal) (kwargs : List (String × PyVal))
    (hargs : ∀ x ∈ args, x.isHandle = false)
    (hkw : ∀ p ∈ kwargs, (p.2 : PyVal).isHandle = false) :
    undelayArguments args kwargs = some (Except.ok (args, kwargs)) := by
  simp [undelayArguments, undelayList_of_handleFree args hargs,
    undelayKwargs_of_handleFree kwargs hkw]

/-!
## Claim theorems
-/

/-- C4: `ProfiledFuture.set_result` and `set_exception` write `_duration`
before the base-class state transition, so the future object fired at every
completion callback — and observed by every awakened waiter — is the terminal
object whose `_duration` is already the given duration. -/
theorem profiledFuture_duration_set_before_completion
    (fut : ProfiledFuture) (v : PyVal) (e : PyErr) (d : Option Nat) :
    (fut.setResult v d).1.duration = d ∧
    (fut.setResult v d).1.state = FutureState.resolved v ∧
    (fut.setResult v d).2 = List.replicate fut.callbacks (fut.setResult v d).1 ∧
    (fut.setException e d).1.duration = d ∧
    (fut.setException e d).1.state = FutureState.failed e ∧
    (fut.setException e d).2 = List.replicate fut.callbacks (fut.setException e d).1 :=
  ⟨rfl, rfl, rfl, rfl, rfl, rfl⟩

/-- C6: on the backend path, `__init__` leaves the session opened while the
future is still pending, and the registered `on_done_callback` closes the
session exactly at future completion, for a successful outcome as well as a
failing one. -/
theorem delayedValue_session_released_on_completion :
    submitPhase.session = SessionState.opened ∧
    submitPhase.future.done = false ∧
    (∀ outcome : Except PyErr PyVal,
      (completePhase submitPhase outcome).session = SessionState.closed ∧
      (completePhase submitPhase outcome).future.done = true) ∧
    (∀ outcome : Except PyErr PyVal,
      ((completePhase submitPhase outcome).session = SessionState.closed ↔
        (completePhase submitPhase outcome).future.done = true)) := by
  refine ⟨rfl, rfl, fun outcome => ?_, fun outcome => ?_⟩
  · cases outcome <;> exact ⟨rfl, rfl⟩
  · cases outcome <;> simp [completePhase, submitPhase, onDoneCallback, FutureState.done]

/-- C8: on a handle whose future is not yet done, `__repr__` returns the
sentinel text containing `<pending>` even though awaiting the future
(`delayed_value()`, i.e. `result()`) would block forever. -/
theorem delayedValue_repr_pending_nonblocking (valueRepr : PyVal → String)
    (dv : DelayedValue) (h : dv.future = FutureState.pending) :
    DelayedValue.reprStr valueRepr dv =
      some (Except.ok ("DelayedValue(" ++ "<pending>" ++ ")")) ∧
    dv.delayedValue = Option.none := by
  constructor
  · simp [DelayedValue.reprStr, h, FutureState.done]
  · simp [DelayedValue.delayedValue, h, FutureState.result]

/-- C8 witness: a freshly pending handle renders the sentinel. -/
theorem delayedValue_repr_pending_nonblocking_witness :
    DelayedValue.reprStr (fun _ => "x")
        { backendSession := Option.none, future := FutureState.pending } =
      some (Except.ok ("DelayedValue(" ++ "<pending>" ++ ")")) ∧
    DelayedValue.delayedValue
        { backendSession := Option.none, future := FutureState.pending } = Option.none :=
  delayedValue_repr_pending_nonblocking (fun _ => "x")
    { backendSession := Option.none, future := FutureState.pending } rfl

/-- C10: on a handle whose future completed with an exception, the future is
done, so `__repr__` calls `delayed_value()` and re-raises the stored error
instead of returning a string; the pending sentinel applies only to futures
that are not yet done. -/
theorem delayedValue_repr_failed_raises (valueRepr : PyVal → String)
    (dv : DelayedValue) (e : PyErr) (h : dv.future = FutureState.failed e) :
    dv.future.done = true ∧
    DelayedValue.reprStr valueRepr dv = some (Except.error e) := by
  constructor
  · simp [h, FutureState.done]
  · simp [DelayedValue.reprStr, h, FutureState.done, DelayedValue.delayedValue,
      FutureState.result]

/-- C10 witness: a handle that failed with `ValueError: math domain error`
re-raises exactly that error from `__repr__`. -/
theorem delayedValue_repr_failed_raises_witness :
    FutureState.done
        (DelayedValue.future
          { backendSession := Option.none,
            future := FutureState.failed ⟨"ValueError", "math domain error"⟩ }) = true ∧
    DelayedValue.reprStr (fun _ => "x")
        { backendSession := Option.none,
          future := FutureState.failed ⟨"ValueError", "math domain error"⟩ } =
      some (Except.error ⟨"ValueError", "math domain error"⟩) :=
  delayedValue_repr_failed_raises (fun _ => "x")
    { backendSession := Option.none,
      future := FutureState.failed ⟨"ValueError", "math domain error"⟩ }
    ⟨"ValueError", "math domain error"⟩ rfl

/-- C1: a deferred-value construction running on a worker whose backend does
not permit nested submission sees no configured backend
(`workerBackendConfigured false`), so `__init__` evaluates the wrapped
function synchronously in the worker and stores its result in an
already-resolved future, acquiring no backend session (no submission). -/
theorem delayedValue_nested_falls_back_sequential
    (f : PyFun) (args : List PyVal) (kwargs : List (String × PyVal))
    (a : List PyVal) (k : List (String × PyVal)) (v : PyVal)
    (hu : undelayArguments args kwargs = some (Except.ok (a, k)))
    (hf : f a k = Except.ok v) :
    DelayedValue.init (workerBackendConfigured false) f args kwargs =
      some (Except.ok
        { backendSession := Option.none, future := FutureState.resolved v }) := by
  simp [DelayedValue.init, workerBackendConfigured, hu, hf]

/-- C1 witness: on a non-nesting worker, wrapping the successor function on
`4` yields a sessionless handle already resolved to `5`. -/
theorem delayedValue_nested_falls_back_sequential_witness :
    DelayedValue.init (workerBackendConfigured false)
        (fun a _ =>
          match a with
          | [PyVal.int n] => Except.ok (PyVal.int (n + 1))
          | _ => Except.error ⟨"TypeError", "bad arguments"⟩)
        [PyVal.int 4] [] =
      some (Except.ok
        { backendSession := Option.none, future := FutureState.resolved (PyVal.int 5) }) :=
  delayedValue_nested_falls_back_sequential
    (fun a _ =>
      match a with
      | [PyVal.int n] => Except.ok (PyVal.int (n + 1))
      | _ => Except.error ⟨"TypeError", "bad arguments"⟩)
    [PyVal.int 4] [] [PyVal.int 4] [] (PyVal.int 5) rfl rfl

/-- C3: with no backend configured, `__init__` runs the function during
construction and stores its result in an already-resolved future; the
resulting handle's future coincides with the backend path's, so
`delayed_value()`, `__repr__` and every forwarded operation behave
identically on the two handles. -/
theorem delayedValue_no_backend_refines_backend_path
    (f : PyFun) (args : List PyVal) (kwargs : List (String × PyVal))
    (a : List PyVal) (k : List (String × PyVal)) (v : PyVal)
    (hu : undelayArguments args kwargs = some (Except.ok (a, k)))
    (hf : f a k = Except.ok v) :
    ∃ dvN dvB : DelayedValue,
      DelayedValue.init false f args kwargs = some (Except.ok dvN) ∧
      DelayedValue.init true f args kwargs = some (Except.ok dvB) ∧
      dvN.future = FutureState.resolved v ∧
      dvN.future.done = true ∧
      dvN.future = dvB.future ∧
      dvN.delayedValue = dvB.delayedValue ∧
      (∀ valueRepr : PyVal → String,
        DelayedValue.reprStr valueRepr dvN = DelayedValue.reprStr valueRepr dvB) ∧
      (∀ (op : PyMethod) (oargs : List PyVal) (okw : List (String × PyVal)),
        forwardedMethod op dvN oargs okw = forwardedMethod op dvB oargs okw) := by
  refine ⟨{ backendSession := Option.none, future := FutureState.resolved v },
    { backendSession := some (onDoneCallback (FutureState.resolved v) SessionState.opened),
      future := FutureState.resolved v }, ?_, ?_, rfl, rfl, rfl, rfl, fun _ => rfl,
    fun _ _ _ => rfl⟩
  · simp [DelayedValue.init, hu, hf]
  · simp [DelayedValue.init, hu, hf]

/-- C3 witness: the two construction paths of the successor of `4` agree. -/
theorem delayedValue_no_backend_refines_backend_path_witness :
    ∃ dvN dvB : DelayedValue,
      DelayedValue.init false
          (fun a _ =>
            match a with
            | [PyVal.int n] => Except.ok (PyVal.int (n + 1))
            | _ => Except.error ⟨"TypeError", "bad arguments"⟩)
          [PyVal.int 4] [] = some (Except.ok dvN) ∧
      DelayedValue.init true
          (fun a _ =>
            match a with
            | [PyVal.int n] => Except.ok (PyVal.int (n + 1))
            | _ => Except.error ⟨"TypeError", "bad arguments"⟩)
          [PyVal.int 4] [] = some (Except.ok dvB) ∧
      dvN.future = FutureState.resolved (PyVal.int 5) ∧
      dvN.future.done = true ∧
      dvN.future = dvB.future ∧
      dvN.delayedValue = dvB.delayedValue ∧
      (∀ valueRepr : PyVal → String,
        DelayedValue.reprStr valueRepr dvN = DelayedValue.reprStr valueRepr dvB) ∧
      (∀ (op : PyMethod) (oargs : List PyVal) (okw : List (String × PyVal)),
        forwardedMethod op dvN oargs okw = forwardedMethod op dvB oargs okw) :=
  delayedValue_no_backend_refines_backend_path
    (fun a _ =>
      match a with
      | [PyVal.int n] => Except.ok (PyVal.int (n + 1))
      | _ => Except.error ⟨"TypeError", "bad arguments"⟩)
    [PyVal.int 4] [] [PyVal.int 4] [] (PyVal.int 5) rfl rfl

/-- C5: when the submitted function raises `E`, the handle's future stores
that very exception object, and awaiting the handle (`delayed_value()`, i.e.
`Future.result()`) re-raises exactly `E` — same type, same message, no
wrapper. -/
theorem delayedValue_await_raises_original_error
    (f : PyFun) (args : List PyVal) (kwargs : List (String × PyVal))
    (a : List PyVal) (k : List (String × PyVal)) (e : PyErr)
    (hu : undelayArguments args kwargs = some (Except.ok (a, k)))
    (hf : f a k = Except.error e) :
    ∃ dv : DelayedValue,
      DelayedValue.init true f args kwargs = some (Except.ok dv) ∧
      dv.future = FutureState.failed e ∧
      dv.delayedValue = some (Except.error e) := by
  refine ⟨⟨some (onDoneCallback (FutureState.failed e) SessionState.opened),
    FutureState.failed e⟩, ?_, rfl, rfl⟩
  simp [DelayedValue.init, hu, hf]

/-- C5 witness: a function raising `ValueError: math domain error` makes the
await re-raise exactly that error. -/
theorem delayedValue_await_raises_original_error_witness :
    ∃ dv : DelayedValue,
      DelayedValue.init true
          (fun _ _ => Except.error ⟨"ValueError", "math domain error"⟩)
          [PyVal.int (-16)] [] = some (Except.ok dv) ∧
      dv.future = FutureState.failed ⟨"ValueError", "math domain error"⟩ ∧
      dv.delayedValue = some (Except.error ⟨"ValueError", "math domain error"⟩) :=
  delayedValue_await_raises_original_error
    (fun _ _ => Except.error ⟨"ValueError", "math domain error"⟩)
    [PyVal.int (-16)] [] [PyVal.int (-16)] [] ⟨"ValueError", "math domain error"⟩ rfl rfl

/-- When `_undelay_arguments` succeeds and the function returns a value, the
constructor yields a handle whose future is resolved with that value; a
session is held (and, the task being complete, already released by
`on_done_callback`) exactly when a backend is configured. -/
theorem init_ok (hb : Bool) (f : PyFun)
    (args : List PyVal) (kwargs : List (String × PyVal))
    (a : List PyVal) (k : List (String × PyVal)) (v : PyVal)
    (hu : undelayArguments args kwargs = some (Except.ok (a, k)))
    (hf : f a k = Except.ok v) :
    DelayedValue.init hb f args kwargs =
      some (Except.ok
        ⟨if hb then some SessionState.closed else Option.none, FutureState.resolved v⟩) := by
  cases hb <;> simp [DelayedValue.init, hu, hf, onDoneCallback]

/-- C2: for a function call that succeeds, any forwarded operation applied to
the handle (with handle-free operation arguments) equals that operation
applied to the function's return value `f(*args)`; the arithmetic,
comparison, indexing, iteration, length, containment, call and conversion
dunder names are all in the installed overload set. -/
theorem delayedValue_forwarded_op_transparent
    (hb : Bool) (f : PyFun) (args : List PyVal) (v : PyVal)
    (hargs : ∀ x ∈ args, x.isHandle = false)
    (hf : f args [] = Except.ok v)
    (op : PyMethod) (oargs : List PyVal) (okw : List (String × PyVal))
    (hoargs : ∀ x ∈ oargs, x.isHandle = false)
    (hokw : ∀ p ∈ okw, (p.2 : PyVal).isHandle = false) :
    ("__add__" ∈ overloadedMethods ∧ "__eq__" ∈ overloadedMethods ∧
      "__getitem__" ∈ overloadedMethods ∧ "__iter__" ∈ overloadedMethods ∧
      "__len__" ∈ overloadedMethods ∧ "__contains__" ∈ overloadedMethods ∧
      "__call__" ∈ overloadedMethods ∧ "__str__" ∈ overloadedMethods ∧
      "__int__" ∈ overloadedMethods ∧ "__float__" ∈ overloadedMethods ∧
      "__bool__" ∈ overloadedMethods) ∧
    ∃ dv : DelayedValue,
      DelayedValue.init hb f args [] = some (Except.ok dv) ∧
      forwardedMethod op dv oargs okw = op v oargs okw := by
  have hu : undelayArguments args [] = some (Except.ok (args, [])) :=
    undelayArguments_of_handleFree args [] hargs (by simp)
  have huo : undelayArguments oargs okw = some (Except.ok (oargs, okw)) :=
    undelayArguments_of_handleFree oargs okw hoargs hokw
  refine ⟨by decide, ⟨⟨if hb then some SessionState.closed else Option.none,
    FutureState.resolved v⟩, init_ok hb f args [] args [] v hu hf, ?_⟩⟩
  simp [forwardedMethod, huo, DelayedValue.delayedValue, FutureState.result]

/-- C2 witness: forwarding `__add__` with argument `2` on the handle of a
successor function applied to `4` equals `int.__add__` applied to the
returned value `5`. -/
theorem delayedValue_forwarded_op_transparent_witness :
    ("__add__" ∈ overloadedMethods ∧ "__eq__" ∈ overloadedMethods ∧
      "__getitem__" ∈ overloadedMethods ∧ "__iter__" ∈ overloadedMethods ∧
      "__len__" ∈ overloadedMethods ∧ "__contains__" ∈ overloadedMethods ∧
      "__call__" ∈ overloadedMethods ∧ "__str__" ∈ overloadedMethods ∧
      "__int__" ∈ overloadedMethods ∧ "__float__" ∈ overloadedMethods ∧
      "__bool__" ∈ overloadedMethods) ∧
    ∃ dv : DelayedValue,
      DelayedValue.init false
          (fun a _ =>
            match a with
            | [PyVal.int n] => Except.ok (PyVal.int (n + 1))
            | _ => Except.error ⟨"TypeError", "bad arguments"⟩)
          [PyVal.int 4] [] = some (Except.ok dv) ∧
      forwardedMethod pyIntAdd dv [PyVal.int 2] [] =
        pyIntAdd (PyVal.int 5) [PyVal.int 2] [] :=
  delayedValue_forwarded_op_transparent false
    (fun a _ =>
      match a with
      | [PyVal.int n] => Except.ok (PyVal.int (n + 1))
      | _ => Except.error ⟨"TypeError", "bad arguments"⟩)
    [PyVal.int 4] (PyVal.int 5)
    (by simp [PyVal.isHandle]) rfl pyIntAdd [PyVal.int 2] []
    (by simp [PyVal.isHandle]) (by simp)

/-- C7: a positional or keyword argument that is itself a handle is awaited
and replaced by its resolved value before the function runs, while a handle
nested inside a container argument is passed through untouched; the future of
the constructed handle then carries the function's result on exactly those
one-level-resolved arguments. -/
theorem delayedValue_arguments_undelayed_one_level
    (hb : Bool) (f : PyFun) (v w v' : PyVal) (fut : FutureState) (name : String)
    (hw : w.isHandle = false)
    (hf : f [v, w, PyVal.list [PyVal.handle fut]] [(name, v)] = Except.ok v') :
    undelayArguments
        [PyVal.handle (FutureState.resolved v), w, PyVal.list [PyVal.handle fut]]
        [(name, PyVal.handle (FutureState.resolved v))] =
      some (Except.ok ([v, w, PyVal.list [PyVal.handle fut]], [(name, v)])) ∧
    ∃ dv : DelayedValue,
      DelayedValue.init hb f
          [PyVal.handle (FutureState.resolved v), w, PyVal.list [PyVal.handle fut]]
          [(name, PyVal.handle (FutureState.resolved v))] =
        some (Except.ok dv) ∧
      dv.future = FutureState.resolved v' := by
  have hu : undelayArguments
      [PyVal.handle (FutureState.resolved v), w, PyVal.list [PyVal.handle fut]]
      [(name, PyVal.handle (FutureState.resolved v))] =
      some (Except.ok ([v, w, PyVal.list [PyVal.handle fut]], [(name, v)])) := by
    simp [undelayArguments, undelayList, undelayKwargs, undelayValue_handle,
      undelayValue_list, undelayValue_of_not_handle w hw, FutureState.result]
  exact ⟨hu, ⟨if hb then some SessionState.closed else Option.none, FutureState.resolved v'⟩,
    init_ok hb f _ _ _ _ v' hu hf, rfl⟩

/-- C7 witness: with a function returning the exact arguments it received,
the handle resolves to the one-level-resolved arguments — the top-level
handles replaced by `1`, the handle inside the list argument untouched. -/
theorem delayedValue_arguments_undelayed_one_level_witness :
    undelayArguments
        [PyVal.handle (FutureState.resolved (PyVal.int 1)), PyVal.int 2,
          PyVal.list [PyVal.handle FutureState.pending]]
        [("kw", PyVal.handle (FutureState.resolved (PyVal.int 1)))] =
      some (Except.ok
        ([PyVal.int 1, PyVal.int 2, PyVal.list [PyVal.handle FutureState.pending]],
          [("kw", PyVal.int 1)])) ∧
    ∃ dv : DelayedValue,
      DelayedValue.init false
          (fun a k => Except.ok (PyVal.list (a ++ k.map Prod.snd)))
          [PyVal.handle (FutureState.resolved (PyVal.int 1)), PyVal.int 2,
            PyVal.list [PyVal.handle FutureState.pending]]
          [("kw", PyVal.handle (FutureState.resolved (PyVal.int 1)))] =
        some (Except.ok dv) ∧
      dv.future = FutureState.resolved
        (PyVal.list [PyVal.int 1, PyVal.int 2,
          PyVal.list [PyVal.handle FutureState.pending], PyVal.int 1]) :=
  delayedValue_arguments_undelayed_one_level false
    (fun a k => Except.ok (PyVal.list (a ++ k.map Prod.snd)))
    (PyVal.int 1) (PyVal.int 2)
    (PyVal.list [PyVal.int 1, PyVal.int 2,
      PyVal.list [PyVal.handle FutureState.pending], PyVal.int 1])
    FutureState.pending "kw" rfl rfl

/-- C9: operation arguments that are themselves handles are awaited and
replaced by their resolved values before delegation, so a forwarded binary
operation between two handles delegates to the operation on the two
underlying function results — e.g. `dv₁ + dv₂` is `op` applied to `f(*a)`
and `g(*b)`. -/
theorem delayedValue_forwarded_op_undelays_handle_args
    (hb hb' : Bool) (f g : PyFun) (a b : List PyVal) (v w : PyVal)
    (ha : ∀ x ∈ a, x.isHandle = false) (hbargs : ∀ x ∈ b, x.isHandle = false)
    (hf : f a [] = Except.ok v) (hg : g b [] = Except.ok w)
    (op : PyMethod) :
    ∃ dv₁ dv₂ : DelayedValue,
      DelayedValue.init hb f a [] = some (Except.ok dv₁) ∧
      DelayedValue.init hb' g b [] = some (Except.ok dv₂) ∧
      forwardedMethod op dv₁ [PyVal.handle dv₂.future] [] = op v [w] [] := by
  have hu1 : undelayArguments a [] = some (Except.ok (a, [])) :=
    undelayArguments_of_handleFree a [] ha (by simp)
  have hu2 : undelayArguments b [] = some (Except.ok (b, [])) :=
    undelayArguments_of_handleFree b [] hbargs (by simp)
  refine ⟨⟨if hb then some SessionState.closed else Option.none, FutureState.resolved v⟩,
    ⟨if hb' then some SessionState.closed else Option.none, FutureState.resolved w⟩,
    init_ok hb f a [] a [] v hu1 hf, init_ok hb' g b [] b [] w hu2 hg, ?_⟩
  simp [forwardedMethod, undelayArguments, undelayList, undelayKwargs, undelayValue,
    FutureState.result, DelayedValue.delayedValue]

/-- C9 witness: adding the handles of two constant functions returning `4`
and `3` delegates to `int.__add__` on `4` and `3` (that is, `7`). -/
theorem delayedValue_forwarded_op_undelays_handle_args_witness :
    ∃ dv₁ dv₂ : DelayedValue,
      DelayedValue.init true (fun _ _ => Except.ok (PyVal.int 4)) [] [] =
        some (Except.ok dv₁) ∧
      DelayedValue.init true (fun _ _ => Except.ok (PyVal.int 3)) [] [] =
        some (Except.ok dv₂) ∧
      forwardedMethod pyIntAdd dv₁ [PyVal.handle dv₂.future] [] =
        pyIntAdd (PyVal.int 4) [PyVal.int 3] [] :=
  delayedValue_forwarded_op_undelays_handle_args true true
    (fun _ _ => Except.ok (PyVal.int 4)) (fun _ _ => Except.ok (PyVal.int 3))
    [] [] (PyVal.int 4) (PyVal.int 3) (by simp) (by simp) rfl rfl pyIntAdd
